import Mathlib

/-!
Verification of the keelos node agent against its specification.

This development shallowly embeds the parts of the source tree that the
checked properties speak about:

* `src/cmd/keel-agent/src/update_scheduler.rs` — the update scheduler
  (`UpdateSchedule`, `ScheduleStatus`, `schedule_update`, `cancel_schedule`,
  `update_status`, `get_due_schedules`, `trigger_rollback`).
* `src/cmd/keel-agent/src/main.rs` — the schedule executor loop body and the
  `install_update` streaming pipeline and the rollback supervisor decision.
* `src/cmd/matic-agent/src/disk.rs` — partition discovery
  (`get_active_partition`, `parse_device_path`, `resolve_partuuid`) and
  `flash_image` digest verification.
* `src/cmd/matic-agent/src/health_check.rs` — `run_all_checks` classification.
* `src/pkg/crypto/src/rotation.rs` — `rotate_certificate`.
* `src/cmd/keel-agent/src/bootstrap.rs` — `sign_bootstrap_csr`.

Wall-clock instants are embedded as `Int` (seconds), `u32` values as `Nat`.
External effects (HTTP streams, the filesystem, OpenSSL signature checks)
are passed in as explicit data or oracle functions, so every definition is
executable.
-/

namespace Keelos

/-! ## Update scheduler (src/cmd/keel-agent/src/update_scheduler.rs) -/

/-- `ScheduleStatus` from update_scheduler.rs. -/
inductive ScheduleStatus where
  | pending
  | running
  | completed
  | failed
  | cancelled
  | rolledBack
deriving DecidableEq, Repr

/-- The `Display` impl for `ScheduleStatus`. -/
def statusDisplay : ScheduleStatus → String
  | .pending => "pending"
  | .running => "running"
  | .completed => "completed"
  | .failed => "failed"
  | .cancelled => "cancelled"
  | .rolledBack => "rolled_back"

/-- `UpdateSchedule` from update_scheduler.rs.  `DateTime<Utc>` fields are
embedded as `Int` seconds; `u32` fields as `Nat`. -/
structure UpdateSchedule where
  id : String
  source_url : String
  expected_sha256 : Option String
  scheduled_at : Option Int
  maintenance_window_secs : Option Nat
  enable_auto_rollback : Bool
  pre_update_hook : Option String
  post_update_hook : Option String
  health_check_timeout_secs : Option Nat
  is_delta : Bool
  fallback_to_full : Bool
  full_image_url : Option String
  rollback_triggered : Bool
  rollback_reason : Option String
  status : ScheduleStatus
  created_at : Int
  started_at : Option Int
  completed_at : Option Int
  error_message : Option String
deriving DecidableEq, Repr

/-- The in-memory `HashMap<String, UpdateSchedule>` as an association list. -/
abbrev Table := List (String × UpdateSchedule)

/-- `HashMap::get` — first binding of the key. -/
def tableFind? (tbl : Table) (id : String) : Option UpdateSchedule :=
  (tbl.find? (fun e => e.1 == id)).map (fun e => e.2)

/-- `HashMap::get_mut` followed by an in-place mutation `f` of the entry. -/
def tableModify (tbl : Table) (id : String) (f : UpdateSchedule → UpdateSchedule) : Table :=
  tbl.map (fun e => if e.1 == id then (e.1, f e.2) else e)

/-- `HashMap::insert` — the new binding replaces any existing one. -/
def tableInsert (tbl : Table) (id : String) (job : UpdateSchedule) : Table :=
  (id, job) :: tbl.filter (fun e => e.1 != id)

/-- Scheduler state: the in-memory map plus what `persist_schedules` last
wrote to the storage path.  A successful mutation persists the whole map. -/
structure SchedState where
  table : Table
  disk : Table
deriving DecidableEq, Repr

/-- Parameters of `UpdateScheduler::schedule_update` (everything the caller
supplies; the id and `created_at` are generated inside). -/
structure ScheduleRequest where
  source_url : String
  expected_sha256 : Option String
  scheduled_at : Option Int
  maintenance_window_secs : Option Nat
  enable_auto_rollback : Bool
  health_check_timeout_secs : Option Nat
  pre_update_hook : Option String
  post_update_hook : Option String
  is_delta : Bool
  fallback_to_full : Bool
  full_image_url : Option String
deriving DecidableEq, Repr

/-- `UpdateScheduler::schedule_update`.  `id` stands for the freshly drawn
`Uuid::new_v4()`, `now` for `Utc::now()`. -/
def schedule_update (st : SchedState) (id : String) (req : ScheduleRequest)
    (now : Int) : SchedState × UpdateSchedule :=
  let sched : UpdateSchedule :=
    { id := id
      source_url := req.source_url
      expected_sha256 := req.expected_sha256
      scheduled_at := req.scheduled_at
      maintenance_window_secs := req.maintenance_window_secs
      enable_auto_rollback := req.enable_auto_rollback
      health_check_timeout_secs := req.health_check_timeout_secs
      rollback_triggered := false
      rollback_reason := none
      pre_update_hook := req.pre_update_hook
      post_update_hook := req.post_update_hook
      is_delta := req.is_delta
      fallback_to_full := req.fallback_to_full
      full_image_url := req.full_image_url
      status := .pending
      created_at := now
      started_at := none
      completed_at := none
      error_message := none }
  let tbl := tableInsert st.table id sched
  ({ table := tbl, disk := tbl }, sched)

/-- `UpdateScheduler::cancel_schedule`. -/
def cancel_schedule (st : SchedState) (id : String) : Except String SchedState :=
  match tableFind? st.table id with
  | some sched =>
    if sched.status = .pending then
      let tbl := tableModify st.table id (fun s => { s with status := .cancelled })
      .ok { table := tbl, disk := tbl }
    else
      .error ("Cannot cancel schedule in status: " ++ statusDisplay sched.status)
  | none => .error ("Schedule not found: " ++ id)

/-- The entry mutation performed by `UpdateScheduler::update_status`:
overwrite status and error message, then stamp `started_at` on `Running`
and `completed_at` on `Completed | Failed | Cancelled` (the `_ => {}` arm
of the source covers `Pending` and `RolledBack`). -/
def statusApply (status : ScheduleStatus) (error_message : Option String) (now : Int)
    (s : UpdateSchedule) : UpdateSchedule :=
  let s := { s with status := status, error_message := error_message }
  match status with
  | .running => { s with started_at := some now }
  | .completed => { s with completed_at := some now }
  | .failed => { s with completed_at := some now }
  | .cancelled => { s with completed_at := some now }
  | _ => s

/-- `UpdateScheduler::update_status`. -/
def update_status (st : SchedState) (id : String) (status : ScheduleStatus)
    (error_message : Option String) (now : Int) : Except String SchedState :=
  match tableFind? st.table id with
  | some _ =>
    let tbl := tableModify st.table id (statusApply status error_message now)
    .ok { table := tbl, disk := tbl }
  | none => .error ("Schedule not found: " ++ id)

/-- `UpdateScheduler::get_due_schedules`: pending jobs whose `scheduled_at`
is present and has passed. -/
def get_due_schedules (st : SchedState) (now : Int) : List UpdateSchedule :=
  (st.table.map (fun e => e.2)).filter (fun s =>
    s.status == .pending && (match s.scheduled_at with
      | some scheduled => decide (scheduled ≤ now)
      | none => false))

/-- `UpdateScheduler::trigger_rollback`. -/
def trigger_rollback (st : SchedState) (id : String) (reason : String)
    (now : Int) : Except String SchedState :=
  match tableFind? st.table id with
  | some _ =>
    let tbl := tableModify st.table id (fun s =>
      { s with rollback_triggered := true
               rollback_reason := some reason
               status := .rolledBack
               completed_at := some now })
    .ok { table := tbl, disk := tbl }
  | none => .error ("Schedule not found: " ++ id)

/-! ## Schedule executor (src/cmd/keel-agent/src/main.rs, `schedule_executor`)

One tick of the executor loop: fetch the due schedules, and for each one mark
it `Running`, run `execute_scheduled_update` (its outcome — hooks, flash,
boot switch — is the oracle `execResult`), then mark it `Completed` or
`Failed` with the error text.  The returned list records the schedules for
which `execute_scheduled_update` was invoked.  The `let _ =` in the source
drops `update_status` errors, hence the `.error` fallbacks keep the state. -/
def schedule_executor_tick (st : SchedState) (now : Int)
    (execResult : UpdateSchedule → Except String Unit) :
    SchedState × List String :=
  (get_due_schedules st now).foldl (fun acc sched =>
    let st1 := match update_status acc.1 sched.id .running none now with
      | .ok s => s
      | .error _ => acc.1
    let launched := acc.2 ++ [sched.id]
    match execResult sched with
    | .ok _ =>
      let st2 := match update_status st1 sched.id .completed none now with
        | .ok s => s
        | .error _ => st1
      (st2, launched)
    | .error msg =>
      let st2 := match update_status st1 sched.id .failed (some msg) now with
        | .ok s => s
        | .error _ => st1
      (st2, launched))
    (st, [])

/-! ### Scheduler call sequences

The mutating entry points of `UpdateScheduler` as one operation type, so
that properties over arbitrary call sequences can be stated.  A failed call
returns `Err` and leaves the state with the caller, hence `applySchedOp`
keeps the previous state on `.error`. -/

/-- One mutating scheduler call. -/
inductive SchedOp where
  | scheduleOp (id : String) (req : ScheduleRequest) (now : Int)
  | cancelOp (id : String)
  | updateStatusOp (id : String) (status : ScheduleStatus) (msg : Option String) (now : Int)
  | triggerRollbackOp (id : String) (reason : String) (now : Int)
deriving DecidableEq, Repr

/-- Effect of one scheduler call on the state. -/
def applySchedOp (st : SchedState) : SchedOp → SchedState
  | .scheduleOp id req now => (schedule_update st id req now).1
  | .cancelOp id =>
    match cancel_schedule st id with
    | .ok st' => st'
    | .error _ => st
  | .updateStatusOp id status msg now =>
    match update_status st id status msg now with
    | .ok st' => st'
    | .error _ => st
  | .triggerRollbackOp id reason now =>
    match trigger_rollback st id reason now with
    | .ok st' => st'
    | .error _ => st

/-- Effect of a call sequence. -/
def applySchedOps (st : SchedState) (ops : List SchedOp) : SchedState :=
  ops.foldl applySchedOp st

/-- The terminal states of the declared state machine. -/
def isTerminal : ScheduleStatus → Bool
  | .completed => true
  | .failed => true
  | .cancelled => true
  | .rolledBack => true
  | _ => false

/-- Calls that respect job `i` in the amended sense: `schedule_update` draws
a fresh UUID (so its id differs from `i`), and `update_status` calls naming
`i` set a terminal status. -/
def opSafeguard (i : String) : SchedOp → Bool
  | .scheduleOp id _ _ => id != i
  | .cancelOp _ => true
  | .updateStatusOp id status _ _ => id != i || isTerminal status
  | .triggerRollbackOp _ _ _ => true

/-! ## Health checks (src/cmd/matic-agent/src/health_check.rs) -/

/-- `HealthCheckResult` from health_check.rs. -/
inductive HealthCheckResult where
  | pass
  | fail (msg : String)
  | unknown (msg : String)
deriving DecidableEq, Repr

/-- `HealthStatus` from health_check.rs. -/
inductive HealthStatus where
  | healthy
  | degraded
  | unhealthy
deriving DecidableEq, Repr

/-- One registered probe as the orchestrator sees it: its name, the outcome
of its `check()` call (the probe body performs I/O, so the outcome is data
here), and its `is_critical()` flag. -/
structure CheckSpec where
  name : String
  result : HealthCheckResult
  critical : Bool
deriving DecidableEq, Repr

/-- `CheckExecution` from health_check.rs (durations dropped: they carry no
information the classification reads). -/
structure CheckExecution where
  name : String
  result : HealthCheckResult
deriving DecidableEq, Repr

/-- `true` exactly on `Fail` results. -/
def isFail : HealthCheckResult → Bool
  | .fail _ => true
  | _ => false

/-- `true` exactly on `Unknown` results. -/
def isUnknown : HealthCheckResult → Bool
  | .unknown _ => true
  | _ => false

/-- The counting loop of `HealthChecker::run_all_checks`: how many `Fail`
results among critical respectively non-critical probes. -/
def countFailures (checks : List CheckSpec) : Nat × Nat :=
  checks.foldl (fun acc check =>
    match check.result with
    | .fail _ => if check.critical then (acc.1 + 1, acc.2) else (acc.1, acc.2 + 1)
    | _ => acc)
    (0, 0)

/-- `HealthChecker::run_all_checks`: execute every probe, then classify —
any critical failure is `Unhealthy`, else any non-critical failure is
`Degraded`, else `Healthy`. -/
def run_all_checks (checks : List CheckSpec) : HealthStatus × List CheckExecution :=
  let executions := checks.map (fun c => CheckExecution.mk c.name c.result)
  let counts := countFailures checks
  let status :=
    if counts.1 > 0 then HealthStatus.unhealthy
    else if counts.2 > 0 then HealthStatus.degraded
    else HealthStatus.healthy
  (status, executions)

/-- The rollback decision of `start_rollback_supervisor`
(src/cmd/keel-agent/src/main.rs): after the stabilization sleep it runs
`run_all_checks` once and initiates the automatic rollback exactly when the
overall status is `Unhealthy`. -/
def rollback_supervisor_triggers (checks : List CheckSpec) : Bool :=
  (run_all_checks checks).1 == .unhealthy

/-! ## Partition discovery (src/cmd/matic-agent/src/disk.rs) -/

/-- `PartitionInfo` from disk.rs. -/
structure PartitionInfo where
  device : String
  index : Nat
deriving DecidableEq, Repr

/-- `DEFAULT_DISK` from disk.rs. -/
def DEFAULT_DISK : String := "/dev/sda"

/-- `SLOT_A_INDEX` from disk.rs. -/
def SLOT_A_INDEX : Nat := 2

/-- `SLOT_B_INDEX` from disk.rs. -/
def SLOT_B_INDEX : Nat := 3

/-! String primitives of the embedding.  Lean core implements `String.split`,
`String.startsWith`, `String.toLower` and friends by recursion on byte
positions, which the kernel cannot evaluate; the definitions below recurse
structurally over the character list instead, with the semantics of the Rust
string methods the source uses. -/

/-- Rust `str::starts_with`. -/
def charsStartWith : List Char → List Char → Bool
  | _, [] => true
  | [], _ :: _ => false
  | c :: cs, p :: ps => c == p && charsStartWith cs ps

/-- Rust `str::starts_with` on strings. -/
def strStartsWith (s pre : String) : Bool :=
  charsStartWith s.data pre.data

/-- Dropping a prefix of known length (`strip_prefix` after a successful
`starts_with`). -/
def strDrop (s : String) (n : Nat) : String :=
  (s.data.drop n).asString

/-- Rust `str::to_lowercase` (the inputs here are ASCII). -/
def strToLower (s : String) : String :=
  (s.data.map Char.toLower).asString

/-- Split a character list at a separator; adjacent separators yield empty
groups, like Rust `str::split(sep)`. -/
def splitOnChar (sep : Char) : List Char → List (List Char)
  | [] => [[]]
  | c :: rest =>
    let r := splitOnChar sep rest
    if c == sep then
      [] :: r
    else
      match r with
      | [] => [[c]]
      | g :: gs => (c :: g) :: gs

/-- Rust `str::lines` (terminator handling is irrelevant to the callers:
an empty trailing line never matches their filters). -/
def strLines (s : String) : List String :=
  (splitOnChar (Char.ofNat 10) s.data).map List.asString

/-- Rust `str::split_whitespace` — the non-empty maximal runs. -/
def splitWhitespace (s : String) : List String :=
  (s.data.splitOnP Char.isWhitespace).map List.asString |>.filter (fun w => w ≠ "")

/-- Rust `rsplit(sep).next()` — the last separator-delimited component. -/
def lastComponent (sep : Char) (s : String) : String :=
  ((splitOnChar sep s.data).getLastD []).asString

/-- `parse::<u32>` on a digit string: empty input fails, the value folds by
decimal digits, and anything past `u32::MAX` fails. -/
def digitsToNat? (cs : List Char) : Option Nat :=
  if cs.isEmpty then
    none
  else
    let n := cs.foldl (fun n c => n * 10 + (c.toNat - 48)) 0
    if n < 2 ^ 32 then some n else none

/-- `parse_device_path` from disk.rs: the trailing run of ASCII digits is
the partition index; no digits (or a value exceeding `u32`) is an
`InvalidData` error, as for `parse::<u32>`. -/
def parse_device_path (device : String) : Except String PartitionInfo :=
  let digits := (device.data.reverse.takeWhile Char.isDigit).reverse
  match digitsToNat? digits with
  | some index => .ok { device := device, index := index }
  | none => .error ("Cannot parse partition number from: " ++ device)

/-- The observable filesystem inputs of `get_active_partition`: the outcome
of reading `/proc/cmdline`, the symlink table under
`/dev/disk/by-partuuid/` (`read_link` results keyed by lower-cased uuid),
and the outcome of reading `/proc/mounts`. -/
structure DiskEnv where
  cmdline : Except String String
  partuuidLink : String → Option String
  mounts : Except String String

/-- `resolve_partuuid` from disk.rs: follow the by-partuuid symlink; on a
readable link take the last path component as the device name; a `read_link`
failure falls back to slot A. -/
def resolve_partuuid (env : DiskEnv) (partuuid : String) : Except String PartitionInfo :=
  match env.partuuidLink (strToLower partuuid) with
  | some target =>
    let dev_name := lastComponent '/' target
    parse_device_path ("/dev/" ++ dev_name)
  | none =>
    .ok { device := DEFAULT_DISK ++ toString SLOT_A_INDEX, index := SLOT_A_INDEX }

/-- The per-parameter step of `get_active_partition`: acts on a `root=`
parameter whose value is a `PARTUUID=` reference or a `/dev/` path, and
skips every other parameter. -/
def activeFromParam (env : DiskEnv) (param : String) : Option (Except String PartitionInfo) :=
  if strStartsWith param "root=" then
    let root_value := strDrop param 5
    if strStartsWith root_value "PARTUUID=" then
      some (resolve_partuuid env (strDrop root_value 9))
    else if strStartsWith root_value "/dev/" then
      some (parse_device_path root_value)
    else
      none
  else
    none

/-- The `/proc/mounts` fallback scan of `get_active_partition`: the first
line whose second field is `/` and whose first field starts with `/dev/`. -/
def activeFromMounts (lines : List String) : Option (Except String PartitionInfo) :=
  match lines with
  | [] => none
  | line :: rest =>
    let parts := splitWhitespace line
    if 2 ≤ parts.length ∧ parts.getD 1 "" = "/" ∧ strStartsWith (parts.headD "") "/dev/" then
      some (parse_device_path (parts.headD ""))
    else
      activeFromMounts rest

/-- First parameter of the kernel command line that decides the result. -/
def activeFromCmdline (env : DiskEnv) (params : List String) :
    Option (Except String PartitionInfo) :=
  match params with
  | [] => none
  | p :: rest =>
    match activeFromParam env p with
    | some r => some r
    | none => activeFromCmdline env rest

/-- `get_active_partition` from disk.rs.  Reading `/proc/cmdline` uses `?`,
so a read failure is returned as an error; only a readable command line
without a usable `root=` parameter reaches the `/proc/mounts` fallback and,
past that, the slot-A default. -/
def get_active_partition (env : DiskEnv) : Except String PartitionInfo :=
  match env.cmdline with
  | .error e => .error e
  | .ok cmdline =>
    match activeFromCmdline env (splitWhitespace cmdline) with
    | some r => r
    | none =>
      let fromMounts := match env.mounts with
        | .ok mounts => activeFromMounts (strLines mounts)
        | .error _ => none
      match fromMounts with
      | some r => r
      | none =>
        .ok { device := DEFAULT_DISK ++ toString SLOT_A_INDEX, index := SLOT_A_INDEX }

/-! ## Image flashing (src/cmd/matic-agent/src/disk.rs, `flash_image`) and the
install pipeline (src/cmd/keel-agent/src/main.rs, `install_update`)

The HTTP download, the device writes and the fsync are external effects: the
embedding takes the outcome as `stream` — either the bytes that were fully
downloaded and written, or the first download/stream/write error.  The
incremental SHA-256 is the function parameter `hashHex`, standing for the
lower-case hex digest of the hasher over exactly the streamed bytes. -/

/-- `flash_image` digest verification (disk.rs lines 162-223): after a clean
stream, when an expected digest is present and non-empty, compare the
computed lower-case hex digest with the lower-cased expectation and fail on
mismatch; otherwise succeed without verification. -/
def flash_image (hashHex : List Nat → String) (stream : Except String (List Nat))
    (expected_sha256 : Option String) : Except String Unit :=
  match stream with
  | .error e => .error e
  | .ok bytes =>
    match expected_sha256 with
    | some expected =>
      if expected ≠ "" then
        let actual := hashHex bytes
        if actual ≠ strToLower expected then
          .error ("SHA256 mismatch: expected " ++ expected ++ ", got " ++ actual)
        else
          .ok ()
      else
        .ok ()
    | none => .ok ()

/-- The fields of `InstallUpdateRequest` that `install_update` reads
(proto strings; the empty string marks an absent value). -/
structure InstallRequest where
  source_url : String
  expected_sha256 : String
  is_delta : Bool
  fallback_to_full : Bool
  full_image_url : String
deriving DecidableEq, Repr

/-- The `install_update` pipeline (main.rs lines 79-194): map an empty
`expected_sha256` to `None`, identify the inactive partition, flash, and
only then call `switch_boot_partition` on the inactive index.  The returned
flag records whether `switch_boot_partition` was invoked; `switchResult`
is the outcome oracle of that sgdisk invocation. -/
def install_update (req : InstallRequest) (inactive : Except String PartitionInfo)
    (hashHex : List Nat → String) (stream : Except String (List Nat))
    (switchResult : Nat → Except String Unit) : Except String Unit × Bool :=
  let expected_sha256 :=
    if req.expected_sha256 = "" then none else some req.expected_sha256
  match inactive with
  | .error e => (.error ("Failed to get inactive partition: " ++ e), false)
  | .ok part =>
    match flash_image hashHex stream expected_sha256 with
    | .error e => (.error ("Flash error: " ++ e), false)
    | .ok _ =>
      match switchResult part.index with
      | .error e => (.error ("Failed to switch boot partition: " ++ e), true)
      | .ok _ => (.ok (), true)

/-! ## Certificate rotation (src/pkg/crypto/src/rotation.rs) -/

/-- A filesystem directory as an association list path ↦ contents. -/
abbrev Fs := List (String × String)

/-- Contents at a path. -/
def fsRead? (fs : Fs) (p : String) : Option String :=
  (fs.find? (fun e => e.1 == p)).map (fun e => e.2)

/-- `std::fs::write` — create or truncate. -/
def fsWrite (fs : Fs) (p c : String) : Fs :=
  (p, c) :: fs.filter (fun e => e.1 != p)

/-- `std::fs::rename` — the destination is replaced, the source vanishes. -/
def fsRename (fs : Fs) (src dst : String) : Fs :=
  match fsRead? fs src with
  | some c => fsWrite (fs.filter (fun e => e.1 != src)) dst c
  | none => fs

/-- `Path::file_stem` composed back into Rust `Path::with_extension`
semantics: the extension is what follows the last dot of the final
component, provided that dot is not its first character. -/
def fileStem (file : String) : String :=
  let rev := file.data.reverse
  let before := rev.dropWhile (fun ch => ch ≠ '.')
  match before with
  | [] => file
  | _ :: stemRev =>
    if stemRev.isEmpty then file else stemRev.reverse.asString

/-- Rust `Path::with_extension` for a non-empty new extension. -/
def withExtension (path ext : String) : String :=
  let comps := (splitOnChar '/' path.data).map List.asString
  let file := comps.getLastD ""
  String.intercalate "/" (comps.dropLast ++ [fileStem file ++ "." ++ ext])

/-- `rotate_certificate` (rotation.rs lines 67-98): write the `.new`
siblings, run `check_expiry` on the new certificate (it fails exactly when
the PEM/X.509 parse or timestamp conversion fails — `certParses` is that
outcome; the computed expiry information itself is discarded by `let _`),
then rename certificate and key into place in that order.  `renameCertOk`
and `renameKeyOk` are the outcomes of the two `fs::rename` calls; a failed
rename leaves the filesystem as it was before that call, and the function
returns the error with no compensation. -/
def rotate_certificate (fs : Fs) (cert_path key_path new_cert_pem new_key_pem : String)
    (certParses : Bool) (renameCertOk renameKeyOk : Bool) :
    Fs × Except String Unit :=
  let temp_cert := withExtension cert_path "pem.new"
  let temp_key := withExtension key_path "key.new"
  let fs1 := fsWrite fs temp_cert new_cert_pem
  let fs2 := fsWrite fs1 temp_key new_key_pem
  if !certParses then
    (fs2, .error "Certificate parse error")
  else if !renameCertOk then
    (fs2, .error "Crypto error: rename failed")
  else
    let fs3 := fsRename fs2 temp_cert cert_path
    if !renameKeyOk then
      (fs3, .error "Crypto error: rename failed")
    else
      (fsRename fs3 temp_key key_path, .ok ())

/-! ## Bootstrap CSR signing (src/cmd/keel-agent/src/bootstrap.rs) -/

/-- A parsed certificate signing request: its subject, its public key, and
the outcome of `csr.verify(&csr_pubkey)` — the OpenSSL self-signature
check is an external computation, so its verdict is data here. -/
structure Csr where
  subject : String
  public_key : String
  signature_valid : Bool
deriving DecidableEq, Repr

/-- The certificate built by `sign_bootstrap_csr`. -/
structure IssuedCert where
  version : Nat
  serial : Nat
  subject : String
  issuer : String
  public_key : String
  not_before : Int
  not_after : Int
deriving DecidableEq, Repr

/-- `sign_bootstrap_csr` (bootstrap.rs lines 14-82): reject a CSR whose
self-signature fails to verify; otherwise build an X.509 v3 certificate
with serial number `BigNum::from_u32(1)`, the subject and public key of the
CSR, the CA as issuer, and validity `days_from_now(0)` to `days_from_now(1)`
(`now` is the wall clock in seconds, one day is 86400 seconds). -/
def sign_bootstrap_csr (ca_subject : String) (csr : Csr) (now : Int) :
    Except String IssuedCert :=
  if !csr.signature_valid then
    .error "Invalid CSR signature"
  else
    .ok { version := 2
          serial := 1
          subject := csr.subject
          issuer := ca_subject
          public_key := csr.public_key
          not_before := now
          not_after := now + 86400 }

/-! ## Concrete values used by witnesses and counterexamples -/

/-- A pending job due at instant 0 with a 60-second maintenance window. -/
def pendingJob : UpdateSchedule :=
  { id := "a"
    source_url := "http://example/img"
    expected_sha256 := none
    scheduled_at := some 0
    maintenance_window_secs := some 60
    enable_auto_rollback := false
    pre_update_hook := none
    post_update_hook := none
    health_check_timeout_secs := none
    is_delta := false
    fallback_to_full := false
    full_image_url := none
    rollback_triggered := false
    rollback_reason := none
    status := .pending
    created_at := 0
    started_at := none
    completed_at := none
    error_message := none }

/-- A job that has reached the terminal state `Completed`. -/
def doneJob : UpdateSchedule :=
  { pendingJob with id := "d", status := .completed }

/-- A plain schedule request. -/
def sampleReq : ScheduleRequest :=
  { source_url := "http://example/img"
    expected_sha256 := none
    scheduled_at := none
    maintenance_window_secs := none
    enable_auto_rollback := false
    health_check_timeout_secs := none
    pre_update_hook := none
    post_update_hook := none
    is_delta := false
    fallback_to_full := false
    full_image_url := none }

/-- A host on which reading `/proc/cmdline` fails. -/
def cmdlineMissingEnv : DiskEnv :=
  { cmdline := .error "No such file or directory"
    partuuidLink := fun _ => none
    mounts := .error "unreadable" }

/-- A host whose command line has no `root=` parameter and whose mount
table is unreadable. -/
def bareCmdlineEnv : DiskEnv :=
  { cmdline := .ok "quiet console=ttyS0"
    partuuidLink := fun _ => none
    mounts := .error "unreadable" }

/-- Canonical certificate and key files before a rotation. -/
def rotateFs : Fs :=
  [("/etc/keel/server.pem", "OLDCERT"), ("/etc/keel/server.key", "OLDKEY")]

/-! ## Lemmas about the association-list embedding of `HashMap` -/

theorem tableFind?_cons (k : String) (v : UpdateSchedule) (tbl : Table) (id : String) :
    tableFind? ((k, v) :: tbl) id = if k = id then some v else tableFind? tbl id := by
  by_cases h : k = id
  · simp [tableFind?, List.find?_cons_of_pos, h]
  · simp only [tableFind?, h, if_false]
    rw [List.find?_cons_of_neg]
    simp [h]

theorem tableModify_cons (k : String) (v : UpdateSchedule) (tbl : Table) (id : String)
    (f : UpdateSchedule → UpdateSchedule) :
    tableModify ((k, v) :: tbl) id f
      = (if k = id then (k, f v) else (k, v)) :: tableModify tbl id f := by
  by_cases h : k = id <;> simp [tableModify, h]

theorem tableFind?_modify_self (tbl : Table) (id : String) (f : UpdateSchedule → UpdateSchedule) :
    tableFind? (tableModify tbl id f) id = (tableFind? tbl id).map f := by
  induction tbl with
  | nil => rfl
  | cons e rest ih =>
    obtain ⟨k, v⟩ := e
    by_cases h : k = id
    · simp [tableModify_cons, h, tableFind?_cons]
    · simp [tableModify_cons, h, tableFind?_cons, ih]

theorem tableFind?_modify_ne (tbl : Table) (id j : String) (f : UpdateSchedule → UpdateSchedule)
    (h : j ≠ id) :
    tableFind? (tableModify tbl id f) j = tableFind? tbl j := by
  induction tbl with
  | nil => rfl
  | cons e rest ih =>
    obtain ⟨k, v⟩ := e
    by_cases hk : k = id
    · have hij : id ≠ j := fun q => h q.symm
      simp [tableModify_cons, hk, tableFind?_cons, hij, ih]
    · simp [tableModify_cons, hk, tableFind?_cons, ih]

theorem tableFind?_filter_ne (tbl : Table) (id j : String) (h : j ≠ id) :
    tableFind? (tbl.filter (fun e => e.1 != id)) j = tableFind? tbl j := by
  induction tbl with
  | nil => rfl
  | cons e rest ih =>
    obtain ⟨k, v⟩ := e
    by_cases hk : k = id
    · have hij : id ≠ j := fun q => h q.symm
      simp [List.filter_cons, hk, tableFind?_cons, hij, ih]
    · simp [List.filter_cons, hk, tableFind?_cons, ih]

theorem tableFind?_insert_self (tbl : Table) (id : String) (job : UpdateSchedule) :
    tableFind? (tableInsert tbl id job) id = some job := by
  simp [tableInsert, tableFind?_cons]

theorem tableFind?_insert_ne (tbl : Table) (id j : String) (job : UpdateSchedule)
    (h : j ≠ id) :
    tableFind? (tableInsert tbl id job) j = tableFind? tbl j := by
  have hne : id ≠ j := fun hij => h hij.symm
  simp [tableInsert, tableFind?_cons, hne, tableFind?_filter_ne tbl id j h]

/-! ## C9: cancel semantics -/

/-- C9: `cancel_schedule` succeeds exactly when the id exists and its job is
`Pending`; the job then becomes `Cancelled` and the table is persisted, other
jobs untouched.  A job in any other state yields the illegal-state error and
(the call returning `Err` with no new state) leaves the table unchanged; an
absent id yields the not-found error; and re-cancelling a freshly cancelled
job yields the illegal-state error naming status `cancelled`. -/
theorem cancel_schedule_spec (st : SchedState) (id : String) :
    (tableFind? st.table id = none →
      cancel_schedule st id = .error ("Schedule not found: " ++ id))
    ∧ (∀ s, tableFind? st.table id = some s → s.status ≠ .pending →
      cancel_schedule st id
        = .error ("Cannot cancel schedule in status: " ++ statusDisplay s.status))
    ∧ (∀ s, tableFind? st.table id = some s → s.status = .pending →
      ∃ st', cancel_schedule st id = .ok st'
        ∧ tableFind? st'.table id = some { s with status := .cancelled }
        ∧ st'.disk = st'.table
        ∧ (∀ j, j ≠ id → tableFind? st'.table j = tableFind? st.table j)
        ∧ cancel_schedule st' id
            = .error ("Cannot cancel schedule in status: cancelled")) := by
  refine ⟨?_, ?_, ?_⟩
  · intro h
    simp [cancel_schedule, h]
  · intro s hs hnp
    simp [cancel_schedule, hs, hnp]
  · intro s hs hp
    refine ⟨{ table := tableModify st.table id (fun s => { s with status := .cancelled }),
              disk := tableModify st.table id (fun s => { s with status := .cancelled }) },
            ?_, ?_, rfl, ?_, ?_⟩
    · simp [cancel_schedule, hs, hp]
    · rw [tableFind?_modify_self, hs]
      rfl
    · intro j hj
      exact tableFind?_modify_ne st.table id j
        (fun s => { s with status := .cancelled }) hj
    · have hfind : tableFind?
          (tableModify st.table id (fun s => { s with status := .cancelled })) id
          = some { s with status := ScheduleStatus.cancelled } := by
        rw [tableFind?_modify_self, hs]
        rfl
      simp [cancel_schedule, hfind, statusDisplay]

/-- C9 witness: a one-job table with a pending job cancelled at its id. -/
theorem cancel_schedule_spec_witness :
    ∃ st', cancel_schedule { table := [("a", pendingJob)], disk := [("a", pendingJob)] } "a"
        = .ok st'
      ∧ tableFind? st'.table "a" = some { pendingJob with status := .cancelled }
      ∧ st'.disk = st'.table
      ∧ cancel_schedule st' "a" = .error ("Cannot cancel schedule in status: cancelled") := by
  obtain ⟨st', h1, h2, h3, _, h5⟩ :=
    (cancel_schedule_spec { table := [("a", pendingJob)], disk := [("a", pendingJob)] } "a").2.2
      pendingJob (by simp [tableFind?_cons]) rfl
  exact ⟨st', h1, h2, h3, h5⟩

/-! ## C6: update_status timestamping -/

/-- C6 counterexample: a job moved to the terminal state `RolledBack` by
`update_status` does not get `completed_at` stamped — the `match` only
covers `Completed | Failed | Cancelled`, so the claim that every terminal
state receives `completed_at := now` is false. -/
theorem update_status_rolledback_no_completed_at :
    ∃ st', update_status { table := [("d", doneJob)], disk := [("d", doneJob)] }
        "d" .rolledBack none 100 = .ok st'
      ∧ (tableFind? st'.table "d").map (fun s => (s.status, s.completed_at))
          = some (.rolledBack, none) := by
  refine ⟨_, rfl, ?_⟩
  decide

/-- C6 (amended): for every existing job id and every status,
`update_status` overwrites the status, stores the provided error message,
sets `started_at` to now on entering `Running`, sets `completed_at` to now
on entering `Completed`, `Failed` or `Cancelled` — but not on `RolledBack`,
which keeps its previous `completed_at` — persists the table, and leaves
other jobs untouched; an absent id yields the not-found error. -/
theorem update_status_spec (st : SchedState) (id : String) (status : ScheduleStatus)
    (msg : Option String) (now : Int) :
    (tableFind? st.table id = none →
      update_status st id status msg now = .error ("Schedule not found: " ++ id))
    ∧ (∀ s, tableFind? st.table id = some s →
      ∃ st', update_status st id status msg now = .ok st'
        ∧ st'.disk = st'.table
        ∧ tableFind? st'.table id = some (statusApply status msg now s)
        ∧ (statusApply status msg now s).status = status
        ∧ (statusApply status msg now s).error_message = msg
        ∧ (statusApply status msg now s).started_at
            = (if status = .running then some now else s.started_at)
        ∧ (statusApply status msg now s).completed_at
            = (if status = .completed ∨ status = .failed ∨ status = .cancelled
               then some now else s.completed_at)
        ∧ (∀ j, j ≠ id → tableFind? st'.table j = tableFind? st.table j)) := by
  refine ⟨?_, ?_⟩
  · intro h
    simp [update_status, h]
  · intro s hs
    refine ⟨{ table := tableModify st.table id (statusApply status msg now),
              disk := tableModify st.table id (statusApply status msg now) },
            ?_, rfl, ?_, ?_, ?_, ?_, ?_, ?_⟩
    · simp [update_status, hs]
    · rw [tableFind?_modify_self, hs]
      rfl
    · cases status <;> rfl
    · cases status <;> rfl
    · cases status <;> simp [statusApply]
    · cases status <;> simp [statusApply]
    · intro j hj
      exact tableFind?_modify_ne st.table id j _ hj

/-- C6 witness: moving a completed job to `Failed` at time 7 stamps
`completed_at` and stores the message. -/
theorem update_status_spec_witness :
    ∃ st', update_status { table := [("d", doneJob)], disk := [("d", doneJob)] }
        "d" .failed (some "boom") 7 = .ok st'
      ∧ st'.disk = st'.table
      ∧ tableFind? st'.table "d" = some (statusApply .failed (some "boom") 7 doneJob)
      ∧ (statusApply .failed (some "boom") 7 doneJob).status = .failed
      ∧ (statusApply .failed (some "boom") 7 doneJob).error_message = some "boom"
      ∧ (statusApply .failed (some "boom") 7 doneJob).started_at
          = (if ScheduleStatus.failed = .running then some 7 else doneJob.started_at)
      ∧ (statusApply .failed (some "boom") 7 doneJob).completed_at
          = (if ScheduleStatus.failed = .completed ∨ ScheduleStatus.failed = .failed
               ∨ ScheduleStatus.failed = .cancelled
             then some 7 else doneJob.completed_at) := by
  obtain ⟨st', h1, h2, h3, h4, h5, h6, h7, _⟩ :=
    (update_status_spec { table := [("d", doneJob)], disk := [("d", doneJob)] }
      "d" .failed (some "boom") 7).2 doneJob (by simp [tableFind?_cons])
  exact ⟨st', h1, h2, h3, h4, h5, h6, h7⟩

/-! ## C2: terminal states under scheduler call sequences -/

theorem statusApply_status (status : ScheduleStatus) (msg : Option String) (now : Int)
    (s : UpdateSchedule) : (statusApply status msg now s).status = status := by
  cases status <;> rfl

theorem applySchedOp_preserves_terminal (st : SchedState) (i : String) (op : SchedOp)
    (hsafe : opSafeguard i op = true)
    (h : ∃ s, tableFind? st.table i = some s ∧ isTerminal s.status = true) :
    ∃ s, tableFind? (applySchedOp st op).table i = some s ∧ isTerminal s.status = true := by
  obtain ⟨s, hs, hterm⟩ := h
  cases op with
  | scheduleOp id req now =>
    have hne : i ≠ id := by
      simp only [opSafeguard, bne_iff_ne, ne_eq] at hsafe
      exact fun q => hsafe q.symm
    refine ⟨s, ?_, hterm⟩
    simp only [applySchedOp, schedule_update]
    rw [tableFind?_insert_ne _ _ _ _ hne]
    exact hs
  | cancelOp id =>
    by_cases hid : id = i
    · subst hid
      have hnp : s.status ≠ .pending := by
        intro hp
        rw [hp] at hterm
        exact absurd hterm (by decide)
      refine ⟨s, ?_, hterm⟩
      simp [applySchedOp, cancel_schedule, hs, hnp]
    · have hne : i ≠ id := fun q => hid q.symm
      simp only [applySchedOp]
      split
      · rename_i st' heq
        cases hf : tableFind? st.table id with
        | none => simp [cancel_schedule, hf] at heq
        | some s0 =>
          by_cases hp : s0.status = .pending
          · simp only [cancel_schedule, hf, hp, if_true] at heq
            cases heq
            refine ⟨s, ?_, hterm⟩
            rw [tableFind?_modify_ne _ _ _ _ hne]
            exact hs
          · simp [cancel_schedule, hf, hp] at heq
      · exact ⟨s, hs, hterm⟩
  | updateStatusOp id status msg now =>
    by_cases hid : id = i
    · subst hid
      have hts : isTerminal status = true := by
        simp only [opSafeguard, Bool.or_eq_true, bne_iff_ne, ne_eq] at hsafe
        rcases hsafe with hq | hq
        · exact absurd trivial hq
        · exact hq
      refine ⟨statusApply status msg now s, ?_, ?_⟩
      · simp only [applySchedOp, update_status, hs]
        rw [tableFind?_modify_self, hs]
        rfl
      · rw [statusApply_status]
        exact hts
    · have hne : i ≠ id := fun q => hid q.symm
      simp only [applySchedOp]
      split
      · rename_i st' heq
        cases hf : tableFind? st.table id with
        | none => simp [update_status, hf] at heq
        | some s0 =>
          simp only [update_status, hf] at heq
          cases heq
          refine ⟨s, ?_, hterm⟩
          rw [tableFind?_modify_ne _ _ _ _ hne]
          exact hs
      · exact ⟨s, hs, hterm⟩
  | triggerRollbackOp id reason now =>
    by_cases hid : id = i
    · subst hid
      refine ⟨{ s with rollback_triggered := true, rollback_reason := some reason, status := .rolledBack, completed_at := some now }, ?_, rfl⟩
      simp only [applySchedOp, trigger_rollback, hs]
      rw [tableFind?_modify_self, hs]
      rfl
    · have hne : i ≠ id := fun q => hid q.symm
      simp only [applySchedOp]
      split
      · rename_i st' heq
        cases hf : tableFind? st.table id with
        | none => simp [trigger_rollback, hf] at heq
        | some s0 =>
          simp only [trigger_rollback, hf] at heq
          cases heq
          refine ⟨s, ?_, hterm⟩
          rw [tableFind?_modify_ne _ _ _ _ hne]
          exact hs
      · exact ⟨s, hs, hterm⟩

/-- C2 counterexample: starting from a job in the terminal state `Completed`,
the one-call sequence `update_status(id, Running)` makes it observed as
`Running` — `update_status` overwrites the status unconditionally, so the
claim quantified over update_status calls is false. -/
theorem terminal_job_reentered_by_update_status :
    isTerminal doneJob.status = true
    ∧ (tableFind? (applySchedOps { table := [("d", doneJob)], disk := [("d", doneJob)] }
          [.updateStatusOp "d" .running none 5]).table "d").map (fun s => s.status)
        = some .running := by
  decide

/-- C2 (amended): once a job is terminal, it stays present and terminal —
never `Pending` or `Running` — under every sequence of scheduler calls in
which each `schedule_update` uses a fresh id (its id is a fresh UUID v4)
and each `update_status` naming the job sets a terminal status.  `cancel`
and `trigger_rollback` calls are unrestricted. -/
theorem terminal_states_never_reentered (st : SchedState) (i : String) (ops : List SchedOp)
    (hstart : ∃ s, tableFind? st.table i = some s ∧ isTerminal s.status = true)
    (hops : ∀ op ∈ ops, opSafeguard i op = true) :
    ∃ s, tableFind? (applySchedOps st ops).table i = some s
      ∧ isTerminal s.status = true ∧ s.status ≠ .pending ∧ s.status ≠ .running := by
  suffices h : ∃ s, tableFind? (applySchedOps st ops).table i = some s
      ∧ isTerminal s.status = true by
    obtain ⟨s, hfind, hterm⟩ := h
    refine ⟨s, hfind, hterm, ?_, ?_⟩
    · intro hp
      rw [hp] at hterm
      exact absurd hterm (by decide)
    · intro hr
      rw [hr] at hterm
      exact absurd hterm (by decide)
  induction ops generalizing st with
  | nil => exact hstart
  | cons op rest ih =>
    exact ih (applySchedOp st op)
      (applySchedOp_preserves_terminal st i op (hops op (by simp)) hstart)
      (fun o ho => hops o (by simp [ho]))

/-- C2 witness: a completed job survives a cancel, a rollback trigger, a
fresh schedule and a terminal update_status, remaining terminal. -/
theorem terminal_states_never_reentered_witness :
    (∀ op ∈ ([.cancelOp "d", .triggerRollbackOp "d" "health" 9,
              .scheduleOp "b" sampleReq 10,
              .updateStatusOp "d" .failed none 11] : List SchedOp),
        opSafeguard "d" op = true)
    ∧ ∃ s, tableFind? (applySchedOps { table := [("d", doneJob)], disk := [("d", doneJob)] }
          [.cancelOp "d", .triggerRollbackOp "d" "health" 9,
           .scheduleOp "b" sampleReq 10,
           .updateStatusOp "d" .failed none 11]).table "d" = some s
        ∧ isTerminal s.status = true ∧ s.status ≠ .pending ∧ s.status ≠ .running :=
  ⟨by decide,
    terminal_states_never_reentered
      { table := [("d", doneJob)], disk := [("d", doneJob)] } "d" _
      ⟨doneJob, by simp [tableFind?_cons], rfl⟩ (by decide)⟩

/-! ## C1: maintenance windows at the executor -/

/-- C1: the executor performs no maintenance-window check.  A pending job
due at instant 0 with a 60-second window, picked up by the tick at instant
1000 (far past the window), is launched — `execute_scheduled_update` is
invoked for it — and on success it finishes `Completed` with no error
message; it is never transitioned to `Failed` with a "missed window"
message.  This contradicts the claim, which the stored-but-never-read
`maintenance_window_secs` field and the module documentation mark as the
intended behavior. -/
theorem schedule_executor_ignores_missed_window :
    (schedule_executor_tick { table := [("a", pendingJob)], disk := [("a", pendingJob)] }
        1000 (fun _ => .ok ())).2 = ["a"]
    ∧ (tableFind? (schedule_executor_tick
          { table := [("a", pendingJob)], disk := [("a", pendingJob)] }
          1000 (fun _ => .ok ())).1.table "a").map (fun s => (s.status, s.error_message))
        = some (.completed, none)
    ∧ pendingJob.scheduled_at = some 0
    ∧ pendingJob.maintenance_window_secs = some 60 := by
  decide

/-! ## C8: health classification -/

theorem countFailures_go (checks : List CheckSpec) (a b : Nat) :
    checks.foldl (fun acc check =>
      match check.result with
      | .fail _ => if check.critical then (acc.1 + 1, acc.2) else (acc.1, acc.2 + 1)
      | _ => acc) (a, b)
    = (a + checks.countP (fun c => c.critical && isFail c.result),
       b + checks.countP (fun c => !c.critical && isFail c.result)) := by
  induction checks generalizing a b with
  | nil => simp
  | cons c rest ih =>
    simp only [List.foldl_cons, List.countP_cons]
    cases hr : c.result with
    | pass => simp [hr, isFail, ih]
    | unknown m => simp [hr, isFail, ih]
    | fail m =>
      by_cases hc : c.critical
      · simp [hr, hc, isFail, ih, Prod.ext_iff]
        omega
      · simp [hr, hc, isFail, ih, Prod.ext_iff]
        omega

theorem countFailures_eq (checks : List CheckSpec) :
    countFailures checks
      = (checks.countP (fun c => c.critical && isFail c.result),
         checks.countP (fun c => !c.critical && isFail c.result)) := by
  unfold countFailures
  simpa using countFailures_go checks 0 0

/-- C8: `run_all_checks` classifies `Unhealthy` exactly when some critical
probe fails, `Degraded` exactly when no critical probe fails but some
non-critical one does, and `Healthy` exactly when no probe fails at all. -/
theorem run_all_checks_classification (checks : List CheckSpec) :
    ((run_all_checks checks).1 = .unhealthy
      ↔ ∃ c ∈ checks, c.critical = true ∧ isFail c.result = true)
    ∧ ((run_all_checks checks).1 = .degraded
      ↔ (¬ ∃ c ∈ checks, c.critical = true ∧ isFail c.result = true)
        ∧ ∃ c ∈ checks, c.critical = false ∧ isFail c.result = true)
    ∧ ((run_all_checks checks).1 = .healthy
      ↔ ¬ ∃ c ∈ checks, isFail c.result = true) := by
  have h1 : 0 < (countFailures checks).1
      ↔ ∃ c ∈ checks, c.critical = true ∧ isFail c.result = true := by
    rw [countFailures_eq]
    simp [List.countP_pos_iff, Bool.and_eq_true]
  have h2 : 0 < (countFailures checks).2
      ↔ ∃ c ∈ checks, c.critical = false ∧ isFail c.result = true := by
    rw [countFailures_eq]
    simp [List.countP_pos_iff, Bool.and_eq_true, Bool.not_eq_true']
  have hsum : (∃ c ∈ checks, isFail c.result = true)
      ↔ ((∃ c ∈ checks, c.critical = true ∧ isFail c.result = true)
        ∨ (∃ c ∈ checks, c.critical = false ∧ isFail c.result = true)) := by
    constructor
    · rintro ⟨c, hc, hf⟩
      by_cases hcrit : c.critical
      · exact .inl ⟨c, hc, hcrit, hf⟩
      · exact .inr ⟨c, hc, by simpa using hcrit, hf⟩
    · rintro (⟨c, hc, _, hf⟩ | ⟨c, hc, _, hf⟩) <;> exact ⟨c, hc, hf⟩
  by_cases hp1 : 0 < (countFailures checks).1
  · have hst : (run_all_checks checks).1 = .unhealthy := by
      simp [run_all_checks, hp1]
    have hE1 := h1.mp hp1
    refine ⟨iff_of_true hst hE1, ?_, ?_⟩
    · exact iff_of_false (by simp [hst]) (fun h => h.1 hE1)
    · exact iff_of_false (by simp [hst]) (fun hn => hn (hsum.mpr (.inl hE1)))
  · by_cases hp2 : 0 < (countFailures checks).2
    · have hst : (run_all_checks checks).1 = .degraded := by
        simp [run_all_checks, hp1, hp2]
      have hE2 := h2.mp hp2
      have hnE1 : ¬ ∃ c ∈ checks, c.critical = true ∧ isFail c.result = true :=
        fun hE1 => hp1 (h1.mpr hE1)
      refine ⟨iff_of_false (by simp [hst]) hnE1, iff_of_true hst ⟨hnE1, hE2⟩, ?_⟩
      · exact iff_of_false (by simp [hst]) (fun hn => hn (hsum.mpr (.inr hE2)))
    · have hst : (run_all_checks checks).1 = .healthy := by
        simp [run_all_checks, hp1, hp2]
      have hnE1 : ¬ ∃ c ∈ checks, c.critical = true ∧ isFail c.result = true :=
        fun hE1 => hp1 (h1.mpr hE1)
      have hnE2 : ¬ ∃ c ∈ checks, c.critical = false ∧ isFail c.result = true :=
        fun hE2 => hp2 (h2.mpr hE2)
      refine ⟨iff_of_false (by simp [hst]) hnE1,
        iff_of_false (by simp [hst]) (fun h => hnE2 h.2), iff_of_true hst ?_⟩
      intro hF
      rcases hsum.mp hF with hE1 | hE2
      · exact hnE1 hE1
      · exact hnE2 hE2

/-- C8 witness: one failing critical probe classifies the run `Unhealthy`. -/
theorem run_all_checks_classification_witness :
    (run_all_checks [{ name := "api", result := .fail "port not listening", critical := true },
                     { name := "network", result := .pass, critical := false }]).1
      = .unhealthy :=
  (run_all_checks_classification
    [{ name := "api", result := .fail "port not listening", critical := true },
     { name := "network", result := .pass, critical := false }]).1.mpr
    ⟨{ name := "api", result := .fail "port not listening", critical := true },
      by decide, rfl, rfl⟩

/-! ## C10: Unknown results and the rollback supervisor -/

/-- C10: only `Fail` results are counted, so a run in which every probe
returns `Unknown` is classified `Healthy`, and the post-boot rollback
supervisor — which rolls back exactly on `Unhealthy` — does not trigger. -/
theorem unknown_results_never_trigger_rollback (checks : List CheckSpec)
    (h : ∀ c ∈ checks, isUnknown c.result = true) :
    (run_all_checks checks).1 = .healthy
    ∧ rollback_supervisor_triggers checks = false := by
  have hz1 : checks.countP (fun c => c.critical && isFail c.result) = 0 := by
    rw [List.countP_eq_zero]
    intro c hc
    have hu := h c hc
    cases hr : c.result <;> simp [hr, isUnknown, isFail] at hu ⊢
  have hz2 : checks.countP (fun c => !c.critical && isFail c.result) = 0 := by
    rw [List.countP_eq_zero]
    intro c hc
    have hu := h c hc
    cases hr : c.result <;> simp [hr, isUnknown, isFail] at hu ⊢
  have hcf := countFailures_eq checks
  constructor
  · simp [run_all_checks, hcf, hz1, hz2]
  · simp [rollback_supervisor_triggers, run_all_checks, hcf, hz1, hz2]

/-- C10 witness: a critical and a non-critical probe both `Unknown`. -/
theorem unknown_results_never_trigger_rollback_witness :
    (∀ c ∈ ([{ name := "boot", result := .unknown "no data", critical := true },
             { name := "network", result := .unknown "no counters", critical := false }]
        : List CheckSpec), isUnknown c.result = true)
    ∧ (run_all_checks
        [{ name := "boot", result := .unknown "no data", critical := true },
         { name := "network", result := .unknown "no counters", critical := false }]).1
          = .healthy
    ∧ rollback_supervisor_triggers
        [{ name := "boot", result := .unknown "no data", critical := true },
         { name := "network", result := .unknown "no counters", critical := false }]
          = false :=
  ⟨by decide, unknown_results_never_trigger_rollback _ (by decide)⟩

/-! ## C3: digest verification gates the boot switch -/

/-- C3: when a non-empty expected digest is supplied and the digest of the
downloaded bytes differs from it under case-insensitive comparison (the
computed digest is lower-case hex, the expectation is lower-cased), the
flash step returns an error and `switch_boot_partition` is never invoked
for that install; an empty-string digest means no verification, so a clean
stream flashes and switches. -/
theorem digest_verification_gates_boot_switch (req : InstallRequest)
    (inactive : Except String PartitionInfo) (part : PartitionInfo)
    (hashHex : List Nat → String) (bytes : List Nat)
    (switchResult : Nat → Except String Unit) :
    (req.expected_sha256 ≠ "" → hashHex bytes ≠ strToLower req.expected_sha256 →
      ∃ e, install_update req inactive hashHex (.ok bytes) switchResult = (.error e, false))
    ∧ flash_image hashHex (.ok bytes) (some "") = .ok ()
    ∧ (req.expected_sha256 = "" →
      install_update req (.ok part) hashHex (.ok bytes) (fun _ => .ok ())
        = (.ok (), true)) := by
  refine ⟨?_, by simp [flash_image], ?_⟩
  · intro hne hmm
    cases inactive with
    | error e => exact ⟨"Failed to get inactive partition: " ++ e, rfl⟩
    | ok p =>
      refine ⟨"Flash error: "
        ++ ("SHA256 mismatch: expected " ++ req.expected_sha256
            ++ ", got " ++ hashHex bytes), ?_⟩
      simp [install_update, flash_image, hne, hmm]
  · intro he
    simp [install_update, flash_image, he]

/-- C3 witness: expected digest "AA" against computed digest "bb" aborts
before the switch; the empty digest skips verification and switches. -/
theorem digest_verification_gates_boot_switch_witness :
    (∃ e, install_update ⟨"http://u", "AA", false, false, ""⟩
        (.ok ⟨"/dev/sda3", 3⟩) (fun _ => "bb") (.ok [1, 2])
        (fun _ => .ok ()) = (.error e, false))
    ∧ flash_image (fun _ => "bb") (.ok [1, 2]) (some "") = .ok ()
    ∧ install_update ⟨"http://u", "", false, false, ""⟩
        (.ok ⟨"/dev/sda3", 3⟩) (fun _ => "bb") (.ok [1, 2])
        (fun _ => .ok ()) = (.ok (), true) :=
  ⟨(digest_verification_gates_boot_switch ⟨"http://u", "AA", false, false, ""⟩
      (.ok ⟨"/dev/sda3", 3⟩) ⟨"/dev/sda3", 3⟩ (fun _ => "bb") [1, 2]
      (fun _ => .ok ())).1 (by decide) (by decide),
   (digest_verification_gates_boot_switch ⟨"http://u", "AA", false, false, ""⟩
      (.ok ⟨"/dev/sda3", 3⟩) ⟨"/dev/sda3", 3⟩ (fun _ => "bb") [1, 2]
      (fun _ => .ok ())).2.1,
   (digest_verification_gates_boot_switch ⟨"http://u", "", false, false, ""⟩
      (.ok ⟨"/dev/sda3", 3⟩) ⟨"/dev/sda3", 3⟩ (fun _ => "bb") [1, 2]
      (fun _ => .ok ())).2.2 rfl⟩

/-! ## C7: missing /proc/cmdline -/

/-- C7 counterexample: when reading `/proc/cmdline` fails, the `?` operator
propagates the read error — `get_active_partition` returns that error and
does not fall back to slot A, contradicting the claim. -/
theorem get_active_partition_propagates_read_error :
    get_active_partition cmdlineMissingEnv = .error "No such file or directory"
    ∧ ∀ p, get_active_partition cmdlineMissingEnv ≠ .ok p := by
  refine ⟨rfl, ?_⟩
  intro p h
  rw [show get_active_partition cmdlineMissingEnv
      = .error "No such file or directory" from rfl] at h
  exact absurd h (by simp)

/-- C7 (amended): a failure to read `/proc/cmdline` is propagated as the
error; the slot-A fallback (partition index 2 on the default disk) applies
when the command line is readable but yields no usable `root=` parameter
and the mount-table scan yields nothing. -/
theorem get_active_partition_fallback_spec (env : DiskEnv) (e s : String) :
    (env.cmdline = .error e → get_active_partition env = .error e)
    ∧ (env.cmdline = .ok s →
      activeFromCmdline env (splitWhitespace s) = none →
      (∀ m, env.mounts = .ok m → activeFromMounts (strLines m) = none) →
      get_active_partition env = .ok { device := "/dev/sda2", index := 2 }) := by
  constructor
  · intro h
    simp [get_active_partition, h]
  · intro hc hparams hm
    have hdev : ({ device := DEFAULT_DISK ++ toString SLOT_A_INDEX, index := SLOT_A_INDEX }
        : PartitionInfo) = { device := "/dev/sda2", index := 2 } := by decide
    simp only [get_active_partition, hc, hparams]
    cases hmounts : env.mounts with
    | error em => simpa using hdev
    | ok m => simpa [hm m hmounts] using hdev

/-- C7 witness: a command line without `root=` and an unreadable mount table
fall back to slot A; a missing command line propagates its error. -/
theorem get_active_partition_fallback_spec_witness :
    get_active_partition cmdlineMissingEnv = .error "No such file or directory"
    ∧ get_active_partition bareCmdlineEnv = .ok { device := "/dev/sda2", index := 2 } :=
  ⟨(get_active_partition_fallback_spec cmdlineMissingEnv "No such file or directory" "").1 rfl,
   (get_active_partition_fallback_spec bareCmdlineEnv "" "quiet console=ttyS0").2 rfl
     rfl (by intro m hm; exact absurd hm (by simp [bareCmdlineEnv]))⟩

/-! ## C4: certificate rotation -/

theorem fsRead?_cons (k c : String) (fs : Fs) (p : String) :
    fsRead? ((k, c) :: fs) p = if k = p then some c else fsRead? fs p := by
  by_cases h : k = p
  · simp [fsRead?, List.find?_cons_of_pos, h]
  · simp only [fsRead?, h, if_false]
    rw [List.find?_cons_of_neg]
    simp [h]

theorem fsRead?_filter_ne (fs : Fs) (p q : String) (h : q ≠ p) :
    fsRead? (fs.filter (fun e => e.1 != p)) q = fsRead? fs q := by
  induction fs with
  | nil => rfl
  | cons e rest ih =>
    obtain ⟨k, v⟩ := e
    by_cases hk : k = p
    · have hij : p ≠ q := fun r => h r.symm
      simp [List.filter_cons, hk, fsRead?_cons, hij, ih]
    · simp [List.filter_cons, hk, fsRead?_cons, ih]

theorem fsRead?_write_self (fs : Fs) (p c : String) :
    fsRead? (fsWrite fs p c) p = some c := by
  simp [fsWrite, fsRead?_cons]

theorem fsRead?_write_ne (fs : Fs) (p c : String) (q : String) (h : q ≠ p) :
    fsRead? (fsWrite fs p c) q = fsRead? fs q := by
  have hne : p ≠ q := fun r => h r.symm
  simp [fsWrite, fsRead?_cons, hne, fsRead?_filter_ne fs p q h]

theorem fsRead?_rename_dst (fs : Fs) (src dst : String) (c : String)
    (hsome : fsRead? fs src = some c) :
    fsRead? (fsRename fs src dst) dst = some c := by
  simp [fsRename, hsome, fsRead?_write_self]

theorem fsRead?_rename_other (fs : Fs) (src dst q : String)
    (h1 : q ≠ src) (h2 : q ≠ dst) :
    fsRead? (fsRename fs src dst) q = fsRead? fs q := by
  cases hsome : fsRead? fs src with
  | none => simp [fsRename, hsome]
  | some c =>
    simp only [fsRename, hsome]
    rw [fsRead?_write_ne _ _ _ _ h2, fsRead?_filter_ne _ _ _ h1]

/-- C4 counterexample: with old material at the canonical paths, a rotation
whose certificate rename succeeds but whose key rename fails returns an
error and performs no revert: the canonical paths are left holding the new
certificate paired with the old key, which the claim says can never be
observed. -/
theorem rotate_certificate_no_revert :
    fsRead? (rotate_certificate rotateFs "/etc/keel/server.pem" "/etc/keel/server.key"
        "NEWCERT" "NEWKEY" true true false).1 "/etc/keel/server.pem" = some "NEWCERT"
    ∧ fsRead? (rotate_certificate rotateFs "/etc/keel/server.pem" "/etc/keel/server.key"
        "NEWCERT" "NEWKEY" true true false).1 "/etc/keel/server.key" = some "OLDKEY"
    ∧ (rotate_certificate rotateFs "/etc/keel/server.pem" "/etc/keel/server.key"
        "NEWCERT" "NEWKEY" true true false).2
        = .error "Crypto error: rename failed" := by
  refine ⟨?_, ?_, rfl⟩ <;> decide

/-- C4 (amended): `rotate_certificate` writes the new certificate and key
to sibling `.new` temporaries, verifies the new certificate (`check_expiry`,
which fails exactly on a parse failure) before any rename, then renames the
certificate and the key into place in that order.  On verification failure
or on a failed certificate rename the canonical files are untouched; but if
the key rename fails after the certificate rename succeeded, the error is
surfaced with no revert, leaving the new certificate at the canonical
certificate path next to the old key. -/
theorem rotate_certificate_spec (fs : Fs) (cert_path key_path new_cert new_key : String)
    (certParses renameKeyOk : Bool)
    (h1 : withExtension cert_path "pem.new" ≠ cert_path)
    (h2 : withExtension cert_path "pem.new" ≠ key_path)
    (h3 : withExtension key_path "key.new" ≠ cert_path)
    (h4 : withExtension key_path "key.new" ≠ key_path)
    (h5 : withExtension key_path "key.new" ≠ withExtension cert_path "pem.new")
    (h6 : key_path ≠ cert_path) :
    (certParses = false →
      (rotate_certificate fs cert_path key_path new_cert new_key certParses true renameKeyOk).2
          = .error "Certificate parse error"
      ∧ fsRead? (rotate_certificate fs cert_path key_path new_cert new_key
            certParses true renameKeyOk).1 cert_path = fsRead? fs cert_path
      ∧ fsRead? (rotate_certificate fs cert_path key_path new_cert new_key
            certParses true renameKeyOk).1 key_path = fsRead? fs key_path
      ∧ fsRead? (rotate_certificate fs cert_path key_path new_cert new_key
            certParses true renameKeyOk).1 (withExtension cert_path "pem.new")
          = some new_cert
      ∧ fsRead? (rotate_certificate fs cert_path key_path new_cert new_key
            certParses true renameKeyOk).1 (withExtension key_path "key.new")
          = some new_key)
    ∧ ((rotate_certificate fs cert_path key_path new_cert new_key true false renameKeyOk).2
          = .error "Crypto error: rename failed"
      ∧ fsRead? (rotate_certificate fs cert_path key_path new_cert new_key
            true false renameKeyOk).1 cert_path = fsRead? fs cert_path
      ∧ fsRead? (rotate_certificate fs cert_path key_path new_cert new_key
            true false renameKeyOk).1 key_path = fsRead? fs key_path)
    ∧ ((rotate_certificate fs cert_path key_path new_cert new_key true true false).2
          = .error "Crypto error: rename failed"
      ∧ fsRead? (rotate_certificate fs cert_path key_path new_cert new_key
            true true false).1 cert_path = some new_cert
      ∧ fsRead? (rotate_certificate fs cert_path key_path new_cert new_key
            true true false).1 key_path = fsRead? fs key_path)
    ∧ ((rotate_certificate fs cert_path key_path new_cert new_key true true true).2 = .ok ()
      ∧ fsRead? (rotate_certificate fs cert_path key_path new_cert new_key
            true true true).1 cert_path = some new_cert
      ∧ fsRead? (rotate_certificate fs cert_path key_path new_cert new_key
            true true true).1 key_path = some new_key) := by
  have hw2c : fsRead? (fsWrite (fsWrite fs (withExtension cert_path "pem.new") new_cert)
      (withExtension key_path "key.new") new_key) cert_path = fsRead? fs cert_path := by
    rw [fsRead?_write_ne _ _ _ _ (fun r => h3 r.symm),
      fsRead?_write_ne _ _ _ _ (fun r => h1 r.symm)]
  have hw2k : fsRead? (fsWrite (fsWrite fs (withExtension cert_path "pem.new") new_cert)
      (withExtension key_path "key.new") new_key) key_path = fsRead? fs key_path := by
    rw [fsRead?_write_ne _ _ _ _ (fun r => h4 r.symm),
      fsRead?_write_ne _ _ _ _ (fun r => h2 r.symm)]
  have hw2tc : fsRead? (fsWrite (fsWrite fs (withExtension cert_path "pem.new") new_cert)
      (withExtension key_path "key.new") new_key) (withExtension cert_path "pem.new")
      = some new_cert := by
    rw [fsRead?_write_ne _ _ _ _ (fun r => h5 r.symm), fsRead?_write_self]
  have hw2tk : fsRead? (fsWrite (fsWrite fs (withExtension cert_path "pem.new") new_cert)
      (withExtension key_path "key.new") new_key) (withExtension key_path "key.new")
      = some new_key :=
    fsRead?_write_self _ _ _
  have hr3c : fsRead? (fsRename (fsWrite (fsWrite fs (withExtension cert_path "pem.new")
      new_cert) (withExtension key_path "key.new") new_key)
      (withExtension cert_path "pem.new") cert_path) cert_path = some new_cert :=
    fsRead?_rename_dst _ _ _ _ hw2tc
  have hr3k : fsRead? (fsRename (fsWrite (fsWrite fs (withExtension cert_path "pem.new")
      new_cert) (withExtension key_path "key.new") new_key)
      (withExtension cert_path "pem.new") cert_path) key_path = fsRead? fs key_path := by
    rw [fsRead?_rename_other _ _ _ _ (fun r => h2 r.symm) h6]
    exact hw2k
  have hr3tk : fsRead? (fsRename (fsWrite (fsWrite fs (withExtension cert_path "pem.new")
      new_cert) (withExtension key_path "key.new") new_key)
      (withExtension cert_path "pem.new") cert_path) (withExtension key_path "key.new")
      = some new_key := by
    rw [fsRead?_rename_other _ _ _ _ h5 h3]
    exact hw2tk
  refine ⟨?_, ?_, ?_, ?_⟩
  · intro hp
    subst hp
    exact ⟨rfl, hw2c, hw2k, hw2tc, hw2tk⟩
  · exact ⟨rfl, hw2c, hw2k⟩
  · exact ⟨rfl, hr3c, hr3k⟩
  · refine ⟨rfl, ?_, ?_⟩
    · show fsRead? (fsRename _ (withExtension key_path "key.new") key_path) cert_path
        = some new_cert
      rw [fsRead?_rename_other _ _ _ _ (fun r => h3 r.symm) (fun r => h6 r.symm)]
      exact hr3c
    · exact fsRead?_rename_dst _ _ _ _ hr3tk

/-- C4 witness: a full successful rotation over concrete files, and the
instantiated hypotheses on the temporary-file names. -/
theorem rotate_certificate_spec_witness :
    withExtension "/etc/keel/server.pem" "pem.new" = "/etc/keel/server.pem.new"
    ∧ withExtension "/etc/keel/server.key" "key.new" = "/etc/keel/server.key.new"
    ∧ (rotate_certificate rotateFs "/etc/keel/server.pem" "/etc/keel/server.key"
        "NEWCERT" "NEWKEY" true true true).2 = .ok ()
    ∧ fsRead? (rotate_certificate rotateFs "/etc/keel/server.pem" "/etc/keel/server.key"
        "NEWCERT" "NEWKEY" true true true).1 "/etc/keel/server.pem" = some "NEWCERT"
    ∧ fsRead? (rotate_certificate rotateFs "/etc/keel/server.pem" "/etc/keel/server.key"
        "NEWCERT" "NEWKEY" true true true).1 "/etc/keel/server.key" = some "NEWKEY" :=
  ⟨by decide, by decide,
    ((rotate_certificate_spec rotateFs "/etc/keel/server.pem" "/etc/keel/server.key"
      "NEWCERT" "NEWKEY" true true (by decide) (by decide) (by decide) (by decide)
      (by decide) (by decide)).2.2.2.1),
    ((rotate_certificate_spec rotateFs "/etc/keel/server.pem" "/etc/keel/server.key"
      "NEWCERT" "NEWKEY" true true (by decide) (by decide) (by decide) (by decide)
      (by decide) (by decide)).2.2.2.2.1),
    ((rotate_certificate_spec rotateFs "/etc/keel/server.pem" "/etc/keel/server.key"
      "NEWCERT" "NEWKEY" true true (by decide) (by decide) (by decide) (by decide)
      (by decide) (by decide)).2.2.2.2.2)⟩

/-! ## C5: bootstrap CSR signing -/

/-- C5: `sign_bootstrap_csr` assigns the constant serial number 1 to every
issued leaf (`BigNum::from_u32(1)`), so two leaves issued by the same CA
3600 seconds apart — well inside one 24-hour window — carry equal serial
numbers, violating the uniqueness the claim requires.  The other asserted
behaviors hold and are evaluated here: subject and public key are copied
from the CSR and the validity spans exactly 24 hours. -/
theorem sign_bootstrap_csr_constant_serial :
    ∃ c1 c2, sign_bootstrap_csr "keel-bootstrap-ca" ⟨"node-a", "pk-a", true⟩ 0 = .ok c1
      ∧ sign_bootstrap_csr "keel-bootstrap-ca" ⟨"node-b", "pk-b", true⟩ 3600 = .ok c2
      ∧ c1.subject = "node-a" ∧ c2.subject = "node-b"
      ∧ c1.public_key = "pk-a" ∧ c2.public_key = "pk-b"
      ∧ c1.not_after - c1.not_before = 86400
      ∧ c2.not_after - c2.not_before = 86400
      ∧ c1.serial = 1 ∧ c2.serial = 1 ∧ c1.serial = c2.serial
      ∧ sign_bootstrap_csr "keel-bootstrap-ca" ⟨"node-c", "pk-c", false⟩ 0
          = .error "Invalid CSR signature" := by
  exact ⟨_, _, rfl, rfl, rfl, rfl, rfl, rfl, by decide, by decide, rfl, rfl, rfl, rfl⟩

end Keelos
